import Mathlib

/-!
Verification of the Financial Indicator Calculation Engine
(`modules/indicator_calculator.py` of the AIFI repository).

The engine is embedded shallowly: Python dictionaries become association
lists, Python `float` values become `ℚ`, `None` becomes `Option.none`,
and code that can raise (the `self.data[year]` subscript) returns
`Except String`.  Python's `round(x, 2)` is modelled as round-half-even
at two decimal places on exact rationals.
-/

namespace AIFI

/-- Round-half-even to an integer, the tie-breaking rule of Python's
built-in `round` on exact values. -/
def roundHalfEven (q : ℚ) : ℤ :=
  let f := ⌊q⌋
  let r := q - (f : ℚ)
  if r < 1/2 then f
  else if 1/2 < r then f + 1
  else if f % 2 = 0 then f else f + 1

/-- `round(x, 2)` of Python: round to two decimal places. -/
def round2 (q : ℚ) : ℚ := ((roundHalfEven (q * 100) : ℤ) : ℚ) / 100

/-- One financial statement: a dictionary from field name to value
(`Dict[str, float]` in the source). -/
abbrev Stmt := List (String × ℚ)

/-- `stmt.get(field)`: `None` when the field is absent. -/
def getField (s : Stmt) (f : String) : Option ℚ :=
  (s.find? (fun p => p.1 == f)).map Prod.snd

/-- One year of data: a dictionary from statement name to statement. -/
abbrev YearData := List (String × Stmt)

/-- `self.data[year].get(name, {})`: the named statement, or the empty
dictionary when the statement is absent. -/
def getStmt (yd : YearData) (name : String) : Stmt :=
  ((yd.find? (fun p => p.1 == name)).map Prod.snd).getD []

/-- The whole input: a dictionary from year to the year's data
(`Dict[int, Dict[str, Dict[str, float]]]`). -/
abbrev FinData := List (Int × YearData)

/-- Dictionary lookup on the year key. -/
def lookupYear (d : FinData) (y : Int) : Option YearData :=
  (d.find? (fun p => p.1 == y)).map Prod.snd

/-- The key list of the input dictionary, in insertion order. -/
def yearKeys (d : FinData) : List Int := d.map Prod.fst

/-- `year in self.data`: dictionary key membership. -/
def memberYear (d : FinData) (y : Int) : Bool := (lookupYear d y).isSome

/-- `self.years = sorted(list(financial_data.keys()), reverse=True)`:
the year keys sorted in descending order. -/
def sortedYears (d : FinData) : List Int :=
  (yearKeys d).insertionSort (fun a b => b ≤ a)

/-- The checked subscript `self.data[year]`, which raises `KeyError`
when the key is absent. -/
def getItemYear (d : FinData) (y : Int) : Except String YearData :=
  match lookupYear d y with
  | some yd => .ok yd
  | none => .error "KeyError"

/-- `IndicatorCalculator._safe_divide`: `None` when the numerator or the
denominator is `None` or the denominator is zero, otherwise
`round((numerator / denominator) * multiply, 2)`. -/
def safe_divide (numerator denominator : Option ℚ) (multiply : ℚ) : Option ℚ :=
  match numerator, denominator with
  | some n, some d => if d = 0 then none else some (round2 ((n / d) * multiply))
  | _, _ => none

/-- `IndicatorCalculator.calculate_profitability_indicators`. -/
def calculate_profitability_indicators (d : FinData) (year : Int) :
    Except String (List (String × Option ℚ)) :=
  if memberYear d year = false then
    .ok [("净利润率", none), ("毛利率", none), ("净资产收益率", none)]
  else do
    let yd ← getItemYear d year
    let balance := getStmt yd "资产负债表"
    let income := getStmt yd "利润表"
    let net_profit_margin :=
      safe_divide (getField income "净利润") (getField income "营业收入") 100
    let gross_profit : Option ℚ :=
      match getField income "营业收入", getField income "营业成本" with
      | some r, some c => some (r - c)
      | _, _ => none
    let gross_profit_margin := safe_divide gross_profit (getField income "营业收入") 100
    let roe := safe_divide (getField income "净利润") (getField balance "所有者权益") 100
    pure [("净利润率", net_profit_margin), ("毛利率", gross_profit_margin),
          ("净资产收益率", roe)]

/-- `IndicatorCalculator.calculate_solvency_indicators`. -/
def calculate_solvency_indicators (d : FinData) (year : Int) :
    Except String (List (String × Option ℚ)) :=
  if memberYear d year = false then
    .ok [("资产负债率", none), ("流动比率", none), ("速动比率", none)]
  else do
    let yd ← getItemYear d year
    let balance := getStmt yd "资产负债表"
    let asset_liability_ratio :=
      safe_divide (getField balance "总负债") (getField balance "总资产") 100
    let current_ratio :=
      safe_divide (getField balance "流动资产") (getField balance "流动负债") 1
    let quick_assets : Option ℚ :=
      match getField balance "流动资产" with
      | some qa => some (qa * 0.8)
      | none => none
    let quick_ratio := safe_divide quick_assets (getField balance "流动负债") 1
    pure [("资产负债率", asset_liability_ratio), ("流动比率", current_ratio),
          ("速动比率", quick_ratio)]

/-- `IndicatorCalculator.calculate_operation_indicators`. -/
def calculate_operation_indicators (d : FinData) (year : Int) :
    Except String (List (String × Option ℚ)) :=
  if memberYear d year = false then
    .ok [("应收账款周转率", none), ("存货周转率", none), ("总资产周转率", none)]
  else do
    let yd ← getItemYear d year
    let balance := getStmt yd "资产负债表"
    let income := getStmt yd "利润表"
    let receivables : Option ℚ :=
      match getField balance "流动资产" with
      | some ca => some (ca * 0.3)
      | none => none
    let receivables_turnover := safe_divide (getField income "营业收入") receivables 1
    let inventory : Option ℚ :=
      match getField balance "流动资产" with
      | some ca => some (ca * 0.2)
      | none => none
    let inventory_turnover := safe_divide (getField income "营业成本") inventory 1
    let total_asset_turnover :=
      safe_divide (getField income "营业收入") (getField balance "总资产") 1
    pure [("应收账款周转率", receivables_turnover), ("存货周转率", inventory_turnover),
          ("总资产周转率", total_asset_turnover)]

/-- `IndicatorCalculator.calculate_cashflow_indicators`. -/
def calculate_cashflow_indicators (d : FinData) (year : Int) :
    Except String (List (String × Option ℚ)) :=
  if memberYear d year = false then
    .ok [("现金利润比", none), ("经营性净现金流", none), ("现金净增加额", none)]
  else do
    let yd ← getItemYear d year
    let income := getStmt yd "利润表"
    let cashflow := getStmt yd "现金流量表"
    let cash_profit_ratio :=
      safe_divide (getField cashflow "经营活动现金流量净额") (getField income "净利润") 1
    let operating_cashflow := getField cashflow "经营活动现金流量净额"
    let cash_increase := getField cashflow "现金及现金等价物净增加额"
    pure [("现金利润比", cash_profit_ratio), ("经营性净现金流", operating_cashflow),
          ("现金净增加额", cash_increase)]

/-- `IndicatorCalculator.calculate_all_indicators`: one entry per year of
`self.years` (the descending-sorted key list), each holding the four
dimension groups. -/
def calculate_all_indicators (d : FinData) :
    Except String (List (Int × List (String × List (String × Option ℚ)))) :=
  (sortedYears d).mapM (fun year => do
    let p ← calculate_profitability_indicators d year
    let s ← calculate_solvency_indicators d year
    let o ← calculate_operation_indicators d year
    let c ← calculate_cashflow_indicators d year
    pure (year, [("盈利风险", p), ("偿债风险", s), ("运营风险", o), ("现金流风险", c)]))

/-- The value `calculate_profitability_indicators` returns, as a function
of the year's lookup result alone. -/
def profitPure : Option YearData → List (String × Option ℚ)
  | none => [("净利润率", none), ("毛利率", none), ("净资产收益率", none)]
  | some yd =>
    [("净利润率", safe_divide (getField (getStmt yd "利润表") "净利润")
        (getField (getStmt yd "利润表") "营业收入") 100),
     ("毛利率", safe_divide
        (match getField (getStmt yd "利润表") "营业收入",
               getField (getStmt yd "利润表") "营业成本" with
         | some r, some c => some (r - c)
         | _, _ => none)
        (getField (getStmt yd "利润表") "营业收入") 100),
     ("净资产收益率", safe_divide (getField (getStmt yd "利润表") "净利润")
        (getField (getStmt yd "资产负债表") "所有者权益") 100)]

/-- The value `calculate_solvency_indicators` returns, as a function of
the year's lookup result alone. -/
def solvencyPure : Option YearData → List (String × Option ℚ)
  | none => [("资产负债率", none), ("流动比率", none), ("速动比率", none)]
  | some yd =>
    [("资产负债率", safe_divide (getField (getStmt yd "资产负债表") "总负债")
        (getField (getStmt yd "资产负债表") "总资产") 100),
     ("流动比率", safe_divide (getField (getStmt yd "资产负债表") "流动资产")
        (getField (getStmt yd "资产负债表") "流动负债") 1),
     ("速动比率", safe_divide
        (match getField (getStmt yd "资产负债表") "流动资产" with
         | some qa => some (qa * 0.8)
         | none => none)
        (getField (getStmt yd "资产负债表") "流动负债") 1)]

/-- The value `calculate_operation_indicators` returns, as a function of
the year's lookup result alone. -/
def operationPure : Option YearData → List (String × Option ℚ)
  | none => [("应收账款周转率", none), ("存货周转率", none), ("总资产周转率", none)]
  | some yd =>
    [("应收账款周转率", safe_divide (getField (getStmt yd "利润表") "营业收入")
        (match getField (getStmt yd "资产负债表") "流动资产" with
         | some ca => some (ca * 0.3)
         | none => none) 1),
     ("存货周转率", safe_divide (getField (getStmt yd "利润表") "营业成本")
        (match getField (getStmt yd "资产负债表") "流动资产" with
         | some ca => some (ca * 0.2)
         | none => none) 1),
     ("总资产周转率", safe_divide (getField (getStmt yd "利润表") "营业收入")
        (getField (getStmt yd "资产负债表") "总资产") 1)]

/-- The value `calculate_cashflow_indicators` returns, as a function of
the year's lookup result alone. -/
def cashflowPure : Option YearData → List (String × Option ℚ)
  | none => [("现金利润比", none), ("经营性净现金流", none), ("现金净增加额", none)]
  | some yd =>
    [("现金利润比", safe_divide (getField (getStmt yd "现金流量表") "经营活动现金流量净额")
        (getField (getStmt yd "利润表") "净利润") 1),
     ("经营性净现金流", getField (getStmt yd "现金流量表") "经营活动现金流量净额"),
     ("现金净增加额", getField (getStmt yd "现金流量表") "现金及现金等价物净增加额")]

/-- One year's four dimension groups, as a function of the year's lookup
result alone. -/
def dimsPure (o : Option YearData) : List (String × List (String × Option ℚ)) :=
  [("盈利风险", profitPure o), ("偿债风险", solvencyPure o),
   ("运营风险", operationPure o), ("现金流风险", cashflowPure o)]

theorem profitability_eq (d : FinData) (year : Int) :
    calculate_profitability_indicators d year = .ok (profitPure (lookupYear d year)) := by
  cases h : lookupYear d year with
  | none =>
    simp [calculate_profitability_indicators, memberYear, h, profitPure]
  | some yd =>
    simp [calculate_profitability_indicators, memberYear, getItemYear, h, profitPure,
      Bind.bind, Except.bind, pure, Except.pure]

theorem solvency_eq (d : FinData) (year : Int) :
    calculate_solvency_indicators d year = .ok (solvencyPure (lookupYear d year)) := by
  cases h : lookupYear d year with
  | none =>
    simp [calculate_solvency_indicators, memberYear, h, solvencyPure]
  | some yd =>
    simp [calculate_solvency_indicators, memberYear, getItemYear, h, solvencyPure,
      Bind.bind, Except.bind, pure, Except.pure]

theorem operation_eq (d : FinData) (year : Int) :
    calculate_operation_indicators d year = .ok (operationPure (lookupYear d year)) := by
  cases h : lookupYear d year with
  | none =>
    simp [calculate_operation_indicators, memberYear, h, operationPure]
  | some yd =>
    simp [calculate_operation_indicators, memberYear, getItemYear, h, operationPure,
      Bind.bind, Except.bind, pure, Except.pure]

theorem cashflow_eq (d : FinData) (year : Int) :
    calculate_cashflow_indicators d year = .ok (cashflowPure (lookupYear d year)) := by
  cases h : lookupYear d year with
  | none =>
    simp [calculate_cashflow_indicators, memberYear, h, cashflowPure]
  | some yd =>
    simp [calculate_cashflow_indicators, memberYear, getItemYear, h, cashflowPure,
      Bind.bind, Except.bind, pure, Except.pure]

theorem mapM_ok {α β : Type} (f : α → Except String β) (g : α → β) (l : List α)
    (h : ∀ a ∈ l, f a = .ok (g a)) : l.mapM f = .ok (l.map g) := by
  induction l with
  | nil => rfl
  | cons a t ih =>
    have ha := h a (List.mem_cons_self a t)
    have ht := ih (fun b hb => h b (List.mem_cons_of_mem a hb))
    rw [List.mapM_cons, ha, ht]
    rfl

theorem all_indicators_eq (d : FinData) :
    calculate_all_indicators d =
      .ok ((sortedYears d).map (fun y => (y, dimsPure (lookupYear d y)))) := by
  apply mapM_ok
  intro y _
  simp [profitability_eq, solvency_eq, operation_eq, cashflow_eq, dimsPure,
    Bind.bind, Except.bind, pure, Except.pure]

/-- C1: `_safe_divide` returns missing when the numerator is missing, the
denominator is missing, or the denominator equals exactly 0, and otherwise
returns `(n / d) * s` rounded to two decimal places; in particular
`SafeArithmetic(33.333, 100, 100) = 33.33`. -/
theorem C1_safe_arithmetic :
    (∀ (n d : Option ℚ) (s : ℚ),
      safe_divide n d s =
        if n = none ∨ d = none ∨ d = some 0 then none
        else some (round2 (n.getD 0 / d.getD 0 * s))) ∧
    safe_divide (some (33333/1000)) (some 100) 100 = some (3333/100) := by
  constructor
  · intro n d s
    match n, d with
    | none, _ => simp [safe_divide]
    | some nv, none => simp [safe_divide]
    | some nv, some dv =>
      by_cases hd : dv = 0
      · simp [safe_divide, hd]
      · simp [safe_divide, hd]
  · norm_num [safe_divide, round2, roundHalfEven, Int.floor_eq_iff]

/-- C2: on any input of the documented shape, no engine operation fails:
each per-dimension calculator and the aggregate calculator return an
`ok` value for every input and every year. -/
theorem C2_no_exceptions :
    ∀ (d : FinData) (year : Int),
      (∃ r, calculate_profitability_indicators d year = .ok r) ∧
      (∃ r, calculate_solvency_indicators d year = .ok r) ∧
      (∃ r, calculate_operation_indicators d year = .ok r) ∧
      (∃ r, calculate_cashflow_indicators d year = .ok r) ∧
      (∃ r, calculate_all_indicators d = .ok r) := by
  intro d year
  exact ⟨⟨_, profitability_eq d year⟩, ⟨_, solvency_eq d year⟩,
    ⟨_, operation_eq d year⟩, ⟨_, cashflow_eq d year⟩, ⟨_, all_indicators_eq d⟩⟩

/-- C3: for a year absent from the input, each of the four per-dimension
calculators returns a result whose every indicator value is missing —
never an exception and never a default of 0. -/
theorem C3_absent_year_all_missing :
    ∀ (d : FinData) (year : Int), memberYear d year = false →
      calculate_profitability_indicators d year =
        .ok [("净利润率", none), ("毛利率", none), ("净资产收益率", none)] ∧
      calculate_solvency_indicators d year =
        .ok [("资产负债率", none), ("流动比率", none), ("速动比率", none)] ∧
      calculate_operation_indicators d year =
        .ok [("应收账款周转率", none), ("存货周转率", none), ("总资产周转率", none)] ∧
      calculate_cashflow_indicators d year =
        .ok [("现金利润比", none), ("经营性净现金流", none), ("现金净增加额", none)] := by
  intro d year h
  have hl : lookupYear d year = none := by
    cases h' : lookupYear d year with
    | none => rfl
    | some yd => rw [memberYear, h'] at h; simp at h
  rw [profitability_eq, solvency_eq, operation_eq, cashflow_eq, hl]
  exact ⟨rfl, rfl, rfl, rfl⟩

theorem C3_witness :
    calculate_profitability_indicators [] 2023 =
      .ok [("净利润率", none), ("毛利率", none), ("净资产收益率", none)] ∧
    calculate_solvency_indicators [] 2023 =
      .ok [("资产负债率", none), ("流动比率", none), ("速动比率", none)] ∧
    calculate_operation_indicators [] 2023 =
      .ok [("应收账款周转率", none), ("存货周转率", none), ("总资产周转率", none)] ∧
    calculate_cashflow_indicators [] 2023 =
      .ok [("现金利润比", none), ("经营性净现金流", none), ("现金净增加额", none)] :=
  C3_absent_year_all_missing [] 2023 rfl

/-- Example income statement: net profit 900000, operating revenue 10000000. -/
def income4 : Stmt := [("净利润", 900000), ("营业收入", 10000000)]

/-- Example input for the profitability percentage-scale check. -/
def exData4 : FinData := [(2023, [("利润表", income4)])]

/-- C4: for a year present in the input, the profitability calculator
returns exactly the three documented formulas, with gross profit genuinely
missing when either operand is missing; and with net profit 900000 over
operating revenue 10000000 the net profit margin is 9.0. -/
theorem C4_profitability_formulas :
    (∀ (d : FinData) (year : Int) (yd : YearData),
      lookupYear d year = some yd →
      calculate_profitability_indicators d year = .ok
        [("净利润率", safe_divide (getField (getStmt yd "利润表") "净利润")
            (getField (getStmt yd "利润表") "营业收入") 100),
         ("毛利率", safe_divide
            (match getField (getStmt yd "利润表") "营业收入",
                   getField (getStmt yd "利润表") "营业成本" with
             | some r, some c => some (r - c)
             | _, _ => none)
            (getField (getStmt yd "利润表") "营业收入") 100),
         ("净资产收益率", safe_divide (getField (getStmt yd "利润表") "净利润")
            (getField (getStmt yd "资产负债表") "所有者权益") 100)]) ∧
    calculate_profitability_indicators exData4 2023 =
      .ok [("净利润率", some 9), ("毛利率", none), ("净资产收益率", none)] := by
  constructor
  · intro d year yd h
    rw [profitability_eq, h]
    rfl
  · rw [profitability_eq]
    have hl : lookupYear exData4 2023 = some [("利润表", income4)] := rfl
    have h1 : getStmt [("利润表", income4)] "利润表" = income4 := rfl
    have h2 : getStmt [("利润表", income4)] "资产负债表" = [] := rfl
    have h3 : getField income4 "净利润" = some 900000 := rfl
    have h4 : getField income4 "营业收入" = some 10000000 := rfl
    have h5 : getField income4 "营业成本" = none := rfl
    have h6 : getField ([] : Stmt) "所有者权益" = none := rfl
    rw [hl]
    simp only [profitPure, h1, h2, h3, h4, h5, h6]
    norm_num [safe_divide, round2, roundHalfEven, Int.floor_eq_iff]

/-- Example balance sheet of Scenario A. -/
def balance5 : Stmt :=
  [("总资产", 10000000), ("总负债", 6000000), ("流动资产", 6000000), ("流动负债", 4000000)]

/-- Example input for the solvency Scenario A check. -/
def exData5 : FinData := [(2023, [("资产负债表", balance5)])]

/-- C5: for a year present in the input, the solvency calculator returns
exactly the three documented formulas, with quick assets estimated as
`current_assets * 0.8` when present and missing otherwise; and Scenario A
yields 60.0, 1.5 and 1.2. -/
theorem C5_solvency_formulas :
    (∀ (d : FinData) (year : Int) (yd : YearData),
      lookupYear d year = some yd →
      calculate_solvency_indicators d year = .ok
        [("资产负债率", safe_divide (getField (getStmt yd "资产负债表") "总负债")
            (getField (getStmt yd "资产负债表") "总资产") 100),
         ("流动比率", safe_divide (getField (getStmt yd "资产负债表") "流动资产")
            (getField (getStmt yd "资产负债表") "流动负债") 1),
         ("速动比率", safe_divide
            (match getField (getStmt yd "资产负债表") "流动资产" with
             | some qa => some (qa * 0.8)
             | none => none)
            (getField (getStmt yd "资产负债表") "流动负债") 1)]) ∧
    calculate_solvency_indicators exData5 2023 =
      .ok [("资产负债率", some 60), ("流动比率", some (3/2)), ("速动比率", some (6/5))] := by
  constructor
  · intro d year yd h
    rw [solvency_eq, h]
    rfl
  · rw [solvency_eq]
    have hl : lookupYear exData5 2023 = some [("资产负债表", balance5)] := rfl
    have h1 : getStmt [("资产负债表", balance5)] "资产负债表" = balance5 := rfl
    have h2 : getField balance5 "总资产" = some 10000000 := rfl
    have h3 : getField balance5 "总负债" = some 6000000 := rfl
    have h4 : getField balance5 "流动资产" = some 6000000 := rfl
    have h5 : getField balance5 "流动负债" = some 4000000 := rfl
    rw [hl]
    simp only [solvencyPure, h1, h2, h3, h4, h5]
    norm_num [safe_divide, round2, roundHalfEven, Int.floor_eq_iff]

/-- C6: for a year present in the input, the operations calculator returns
exactly the three documented formulas, with receivables estimated as
`current_assets * 0.3` and inventory as `current_assets * 0.2` when
current assets are present, and missing otherwise. -/
theorem C6_operation_formulas :
    ∀ (d : FinData) (year : Int) (yd : YearData),
      lookupYear d year = some yd →
      calculate_operation_indicators d year = .ok
        [("应收账款周转率", safe_divide (getField (getStmt yd "利润表") "营业收入")
            (match getField (getStmt yd "资产负债表") "流动资产" with
             | some ca => some (ca * 0.3)
             | none => none) 1),
         ("存货周转率", safe_divide (getField (getStmt yd "利润表") "营业成本")
            (match getField (getStmt yd "资产负债表") "流动资产" with
             | some ca => some (ca * 0.2)
             | none => none) 1),
         ("总资产周转率", safe_divide (getField (getStmt yd "利润表") "营业收入")
            (getField (getStmt yd "资产负债表") "总资产") 1)] := by
  intro d year yd h
  rw [operation_eq, h]
  rfl

theorem C6_witness :
    calculate_operation_indicators exData5 2023 = .ok
      [("应收账款周转率", safe_divide (getField (getStmt [("资产负债表", balance5)] "利润表") "营业收入")
          (match getField (getStmt [("资产负债表", balance5)] "资产负债表") "流动资产" with
           | some ca => some (ca * 0.3)
           | none => none) 1),
       ("存货周转率", safe_divide (getField (getStmt [("资产负债表", balance5)] "利润表") "营业成本")
          (match getField (getStmt [("资产负债表", balance5)] "资产负债表") "流动资产" with
           | some ca => some (ca * 0.2)
           | none => none) 1),
       ("总资产周转率", safe_divide (getField (getStmt [("资产负债表", balance5)] "利润表") "营业收入")
          (getField (getStmt [("资产负债表", balance5)] "资产负债表") "总资产") 1)] :=
  C6_operation_formulas exData5 2023 [("资产负债表", balance5)] rfl

/-- Example cash-flow statement holding only an operating cash flow of
123456.78. -/
def cashflow7 : Stmt := [("经营活动现金流量净额", 123456.78)]

/-- Example input for the cash-flow pass-through check. -/
def exData7 : FinData := [(2023, [("现金流量表", cashflow7)])]

/-- C7: for a year present in the input, the cash-flow calculator returns
the documented ratio and passes the two cash-flow fields through unchanged:
an operating cash flow input of 123456.78 appears as exactly 123456.78. -/
theorem C7_cashflow_formulas :
    (∀ (d : FinData) (year : Int) (yd : YearData),
      lookupYear d year = some yd →
      calculate_cashflow_indicators d year = .ok
        [("现金利润比", safe_divide (getField (getStmt yd "现金流量表") "经营活动现金流量净额")
            (getField (getStmt yd "利润表") "净利润") 1),
         ("经营性净现金流", getField (getStmt yd "现金流量表") "经营活动现金流量净额"),
         ("现金净增加额", getField (getStmt yd "现金流量表") "现金及现金等价物净增加额")]) ∧
    calculate_cashflow_indicators exData7 2023 =
      .ok [("现金利润比", none), ("经营性净现金流", some 123456.78), ("现金净增加额", none)] := by
  constructor
  · intro d year yd h
    rw [cashflow_eq, h]
    rfl
  · rw [cashflow_eq]
    rfl

theorem C4_witness :
    calculate_profitability_indicators exData4 2023 = .ok
      [("净利润率", safe_divide (getField (getStmt [("利润表", income4)] "利润表") "净利润")
          (getField (getStmt [("利润表", income4)] "利润表") "营业收入") 100),
       ("毛利率", safe_divide
          (match getField (getStmt [("利润表", income4)] "利润表") "营业收入",
                 getField (getStmt [("利润表", income4)] "利润表") "营业成本" with
           | some r, some c => some (r - c)
           | _, _ => none)
          (getField (getStmt [("利润表", income4)] "利润表") "营业收入") 100),
       ("净资产收益率", safe_divide (getField (getStmt [("利润表", income4)] "利润表") "净利润")
          (getField (getStmt [("利润表", income4)] "资产负债表") "所有者权益") 100)] :=
  C4_profitability_formulas.1 exData4 2023 [("利润表", income4)] rfl

theorem C5_witness :
    calculate_solvency_indicators exData5 2023 = .ok
      [("资产负债率", safe_divide (getField (getStmt [("资产负债表", balance5)] "资产负债表") "总负债")
          (getField (getStmt [("资产负债表", balance5)] "资产负债表") "总资产") 100),
       ("流动比率", safe_divide (getField (getStmt [("资产负债表", balance5)] "资产负债表") "流动资产")
          (getField (getStmt [("资产负债表", balance5)] "资产负债表") "流动负债") 1),
       ("速动比率", safe_divide
          (match getField (getStmt [("资产负债表", balance5)] "资产负债表") "流动资产" with
           | some qa => some (qa * 0.8)
           | none => none)
          (getField (getStmt [("资产负债表", balance5)] "资产负债表") "流动负债") 1)] :=
  C5_solvency_formulas.1 exData5 2023 [("资产负债表", balance5)] rfl

theorem C7_witness :
    calculate_cashflow_indicators exData7 2023 = .ok
      [("现金利润比", safe_divide (getField (getStmt [("现金流量表", cashflow7)] "现金流量表") "经营活动现金流量净额")
          (getField (getStmt [("现金流量表", cashflow7)] "利润表") "净利润") 1),
       ("经营性净现金流", getField (getStmt [("现金流量表", cashflow7)] "现金流量表") "经营活动现金流量净额"),
       ("现金净增加额", getField (getStmt [("现金流量表", cashflow7)] "现金流量表") "现金及现金等价物净增加额")] :=
  C7_cashflow_formulas.1 exData7 2023 [("现金流量表", cashflow7)] rfl

/-- The caller of the C8 counterexample supplies year 2020 before 2023. -/
def d8 : FinData := [(2020, []), (2023, [])]

/-- C8 counterexample: supplying the years in the order 2020, 2023 makes
`calculate_all_indicators` emit its entries as 2023, 2020 — not the order
the caller supplied. -/
theorem C8_counterexample :
    yearKeys d8 = [2020, 2023] ∧
    (calculate_all_indicators d8).map (fun r => r.map Prod.fst) = .ok [2023, 2020] ∧
    ([2023, 2020] : List Int) ≠ [2020, 2023] := by
  refine ⟨rfl, ?_, by decide⟩
  rw [all_indicators_eq]
  rfl

/-- C8 amended: `calculate_all_indicators` produces its per-year entries in
descending year order — the year keys sorted most-recent-first — regardless
of the order the caller supplied them; the emitted year sequence is a
permutation of the caller's year keys. -/
theorem C8_amended_descending_order :
    ∀ d : FinData, ∃ r, calculate_all_indicators d = .ok r ∧
      r.map Prod.fst = sortedYears d ∧
      List.Sorted (fun a b : Int => b ≤ a) (r.map Prod.fst) ∧
      (r.map Prod.fst).Perm (yearKeys d) := by
  intro d
  have hfst : ((sortedYears d).map (fun y => (y, dimsPure (lookupYear d y)))).map Prod.fst
      = sortedYears d := by
    induction sortedYears d with
    | nil => rfl
    | cons a t ih => simp [ih]
  refine ⟨_, all_indicators_eq d, hfst, ?_, ?_⟩
  · rw [hfst, sortedYears]
    exact List.sorted_insertionSort (fun a b : Int => b ≤ a) (yearKeys d)
  · rw [hfst, sortedYears]
    exact List.perm_insertionSort (fun a b : Int => b ≤ a) (yearKeys d)

theorem find_in_pairs {β : Type} (l : List Int) (g : Int → β) (y : Int) :
    ((l.map (fun a => (a, g a))).find? (fun p => p.1 == y)).map Prod.snd =
      if y ∈ l then some (g y) else none := by
  induction l with
  | nil => simp
  | cons a t ih =>
    by_cases hay : a = y
    · subst hay
      simp [List.find?_cons_of_pos]
    · rw [List.map_cons, List.find?_cons_of_neg _ (by simp [hay]), ih]
      have hya : ¬ y = a := fun hc => hay hc.symm
      simp [List.mem_cons, hya]

theorem mem_keys_iff_lookup (d : FinData) (y : Int) :
    y ∈ yearKeys d ↔ (lookupYear d y).isSome := by
  induction d with
  | nil => simp [yearKeys, lookupYear]
  | cons p t ih =>
    by_cases hpy : p.1 = y
    · simp [yearKeys, lookupYear, List.find?_cons_of_pos, hpy]
    · rw [yearKeys, List.map_cons, List.mem_cons]
      rw [lookupYear, List.find?_cons_of_neg _ (by simp [hpy])]
      rw [yearKeys] at ih
      rw [lookupYear] at ih
      simp [ih, hpy]
      intro h
      exact absurd h.symm hpy

theorem mem_sortedYears (d : FinData) (y : Int) :
    y ∈ sortedYears d ↔ (lookupYear d y).isSome := by
  rw [sortedYears, (List.perm_insertionSort (fun a b : Int => b ≤ a) (yearKeys d)).mem_iff]
  exact mem_keys_iff_lookup d y

/-- C9: two-run noninterference across years — if two inputs agree on year
Y's own data, every per-dimension calculator and the year-Y entry of
`calculate_all_indicators` agree between the two runs. -/
theorem C9_year_independence :
    ∀ (d1 d2 : FinData) (y : Int), lookupYear d1 y = lookupYear d2 y →
      calculate_profitability_indicators d1 y = calculate_profitability_indicators d2 y ∧
      calculate_solvency_indicators d1 y = calculate_solvency_indicators d2 y ∧
      calculate_operation_indicators d1 y = calculate_operation_indicators d2 y ∧
      calculate_cashflow_indicators d1 y = calculate_cashflow_indicators d2 y ∧
      ∀ r1 r2, calculate_all_indicators d1 = .ok r1 → calculate_all_indicators d2 = .ok r2 →
        (r1.find? (fun p => p.1 == y)).map Prod.snd =
          (r2.find? (fun p => p.1 == y)).map Prod.snd := by
  intro d1 d2 y h
  refine ⟨?_, ?_, ?_, ?_, ?_⟩
  · rw [profitability_eq, profitability_eq, h]
  · rw [solvency_eq, solvency_eq, h]
  · rw [operation_eq, operation_eq, h]
  · rw [cashflow_eq, cashflow_eq, h]
  · intro r1 r2 h1 h2
    have e1 : r1 = (sortedYears d1).map (fun a => (a, dimsPure (lookupYear d1 a))) := by
      have ha := all_indicators_eq d1
      rw [h1] at ha
      exact Except.ok.inj ha
    have e2 : r2 = (sortedYears d2).map (fun a => (a, dimsPure (lookupYear d2 a))) := by
      have ha := all_indicators_eq d2
      rw [h2] at ha
      exact Except.ok.inj ha
    rw [e1, e2, find_in_pairs, find_in_pairs]
    have hm : (y ∈ sortedYears d1) ↔ (y ∈ sortedYears d2) := by
      rw [mem_sortedYears, mem_sortedYears, h]
    by_cases hy : y ∈ sortedYears d1
    · rw [if_pos hy, if_pos (hm.mp hy), h]
    · rw [if_neg hy, if_neg (fun hc => hy (hm.mpr hc))]

theorem C9_witness :
    calculate_profitability_indicators [(2023, []), (2020, [("利润表", [("净利润", 1)])])] 2023 =
      calculate_profitability_indicators [(2023, [])] 2023 :=
  (C9_year_independence [(2023, []), (2020, [("利润表", [("净利润", 1)])])] [(2023, [])]
    2023 rfl).1

theorem getStmt_cons_absent (yd : YearData) (name : String)
    (h : yd.find? (fun p => p.1 == name) = none) (n : String) :
    getStmt ((name, ([] : Stmt)) :: yd) n = getStmt yd n := by
  by_cases hn : name = n
  · subst hn
    rw [getStmt, getStmt, List.find?_cons_of_pos _ (by simp), h]
    rfl
  · rw [getStmt, getStmt, List.find?_cons_of_neg _ (by simp [hn])]

/-- C10: a year whose mapping lacks a statement key behaves exactly as if
that statement were present with every field missing: the absent statement
reads as the empty statement, every field of it is missing, and each of
the four calculators returns the same result as on an input whose year
data binds that statement name to the all-missing statement. -/
theorem C10_missing_statement :
    ∀ (d d2 : FinData) (year : Int) (yd : YearData) (name : String),
      lookupYear d year = some yd →
      lookupYear d2 year = some ((name, ([] : Stmt)) :: yd) →
      yd.find? (fun p => p.1 == name) = none →
      getStmt yd name = [] ∧
      (∀ f, getField (getStmt yd name) f = none) ∧
      calculate_profitability_indicators d year = calculate_profitability_indicators d2 year ∧
      calculate_solvency_indicators d year = calculate_solvency_indicators d2 year ∧
      calculate_operation_indicators d year = calculate_operation_indicators d2 year ∧
      calculate_cashflow_indicators d year = calculate_cashflow_indicators d2 year := by
  intro d d2 year yd name h1 h2 hfind
  have hempty : getStmt yd name = [] := by
    rw [getStmt, hfind]
    rfl
  have hs := getStmt_cons_absent yd name hfind
  refine ⟨hempty, ?_, ?_, ?_, ?_, ?_⟩
  · intro f
    rw [hempty]
    rfl
  · rw [profitability_eq, profitability_eq, h1, h2]
    simp [profitPure, hs]
  · rw [solvency_eq, solvency_eq, h1, h2]
    simp [solvencyPure, hs]
  · rw [operation_eq, operation_eq, h1, h2]
    simp [operationPure, hs]
  · rw [cashflow_eq, cashflow_eq, h1, h2]
    simp [cashflowPure, hs]

/-- One year of data holding only an income statement, for the C10 witness. -/
def ydC10 : YearData := [("利润表", [("净利润", 5)])]

theorem C10_witness :
    calculate_profitability_indicators [(2023, ydC10)] 2023 =
      calculate_profitability_indicators [(2023, ("资产负债表", ([] : Stmt)) :: ydC10)] 2023 :=
  (C10_missing_statement [(2023, ydC10)] [(2023, ("资产负债表", ([] : Stmt)) :: ydC10)]
    2023 ydC10 "资产负债表" rfl rfl rfl).2.2.1

end AIFI
